import Mathlib

/-!
Shallow embedding of the APOD resolution pipeline of `server.js`
(the `/apod-proxy` route, the TTL cache, the four lookup strategies and the
asset resolver `resolveAssetByNasaId`).

Modelling conventions:
* Network I/O is replaced by a `World` record of response functions: each
  upstream endpoint becomes a function from its request key to an optional
  parsed payload (`none` models any axios failure: thrown error, timeout,
  non-200 status or falsy body — all of which the source collapses into the
  same "strategy returns null" behaviour).
* JS nullable string fields become `Option String`; JS truthiness of such a
  field (`undefined`, `null` and `""` are falsy) is `truthy`.
* `Date.now()` becomes an explicit `now : Nat` (milliseconds).
* The mutable `cache` Map becomes an association list threaded through the
  handlers; `cacheGet` returns the value together with the updated store,
  since the source's `cacheGet` deletes expired entries.
* Each handler additionally returns a trace of observable events (cache read,
  each upstream strategy invocation) so that call-order/short-circuit
  properties can be stated.
-/

namespace ApodProxy

/-- JS truthiness of a possibly-absent string (`undefined`/`null`/`""` falsy). -/
def truthy : Option String → Bool
  | none => false
  | some s => !s.isEmpty

/-- JS `a || b` on nullable strings: `a` when truthy, else `b`. -/
def jsOr (a b : Option String) : Option String :=
  if truthy a then a else b

/-- JS `a || d` where the default is a plain string (e.g. `media_type || 'image'`). -/
def jsOrStr (a : Option String) (d : String) : String :=
  match a with
  | some s => if s.isEmpty then d else s
  | none => d

/-- JS `s || null` on a plain string: `null` when empty. -/
def strToOpt (s : String) : Option String :=
  if s.isEmpty then none else some s

/-- JS `a || b` on plain strings (empty string is falsy). -/
def jsOrS (a b : String) : String :=
  if a.isEmpty then b else a

/-- The string behind an optional field, `""` when absent (only used under a
`truthy` guard, mirroring JS short-circuit `href && href.match(...)`). -/
def ostr : Option String → String
  | none => ""
  | some s => s

/-! ## TTL cache (`cache`, `cacheGet`, `cacheSet` — server.js lines 23-39) -/

/-- `{ data, expires }` entry of the in-memory cache Map. -/
structure CacheEntry (α : Type) where
  data : α
  expires : Nat
deriving DecidableEq, Repr

/-- The cache Map, as an association list keyed by namespaced strings. -/
abbrev Cache (α : Type) := List (String × CacheEntry α)

/-- `cache.get(key)` of the underlying Map. -/
def cacheLookup (c : Cache α) (k : String) : Option (CacheEntry α) :=
  (c.find? (fun p => p.1 == k)).map Prod.snd

/-- `cache.delete(key)` of the underlying Map. -/
def cacheDelete (c : Cache α) (k : String) : Cache α :=
  c.filter (fun p => p.1 != k)

/-- `cacheSet(key, data, ttl)`: `cache.set(key, { data, expires: Date.now() + ttl })`. -/
def cacheSet (c : Cache α) (k : String) (d : α) (now ttl : Nat) : Cache α :=
  (k, ⟨d, now + ttl⟩) :: cacheDelete c k

/-- `cacheGet(key)`: absent ↦ null; expired (`Date.now() > entry.expires`)
↦ delete the entry and return null; otherwise return `entry.data`.
Returns the possibly-updated store alongside the value. -/
def cacheGet (c : Cache α) (k : String) (now : Nat) : Option α × Cache α :=
  match cacheLookup c k with
  | none => (none, c)
  | some e => if now > e.expires then (none, cacheDelete c k) else (some e.data, c)

/-- `CACHE_TTL_MS = 24 * 60 * 60 * 1000`. -/
def CACHE_TTL_MS : Nat := 24 * 60 * 60 * 1000

/-! ## Data model of upstream payloads and results -/

/-- Fields of interest of an APOD API response body (`res.data`). -/
structure ApodRaw where
  url : Option String
  hdurl : Option String
  title : Option String
  explanation : Option String
  media_type : Option String
deriving DecidableEq, Repr

/-- Abstraction of a fetched HTML page as the cheerio queries of
`scrapeApodPage` see it: the (untrimmed) `<title>` text, the first `<b>`
text, the `href`s of all `<a>` elements in document order (missing `href`
attribute ↦ `""`), the `src`s of all `<img>` elements in document order
(missing `src` ↦ `""`), and the full body text. -/
structure PageDoc where
  titleTxt : String
  boldTxt : String
  anchors : List String
  imgs : List String
  bodyTxt : String
deriving DecidableEq, Repr

/-- `archived_snapshots.closest` of a Wayback availability response. -/
structure WaybackClosest where
  available : Bool
  url : String
deriving DecidableEq, Repr

/-- Wayback availability response body; `closest = none` models both a
missing `archived_snapshots` object and a missing `closest` field. -/
structure WaybackResp where
  closest : Option WaybackClosest
deriving DecidableEq, Repr

/-- One `links` element of an images-api search item. -/
structure SearchLink where
  href : Option String
deriving DecidableEq, Repr

/-- One `data` element of an images-api search item. -/
structure SearchData where
  title : Option String
  description : Option String
  description_508 : Option String
deriving DecidableEq, Repr

/-- One item of an images-api search collection; a missing `links` array is
modelled as `[]` (the source treats both identically via
`!item.links || item.links.length === 0`), likewise `data`. -/
structure SearchItem where
  links : List SearchLink
  data : List SearchData
deriving DecidableEq, Repr

/-- One `collection.items` element of a per-identifier asset listing. -/
structure AssetItem where
  href : Option String
deriving DecidableEq, Repr

/-- The normalized result object the `/apod-proxy` route builds and caches.
Branches of the source that omit a field (e.g. `hdurl` outside the API
branch) are modelled with `none`. -/
structure MediaOut where
  date : String
  title : Option String
  explanation : Option String
  media_type : String
  url : Option String
  hdurl : Option String
  source : String
deriving DecidableEq, Repr

/-- The result object of `resolveAssetByNasaId`. -/
structure AssetOut where
  best : Option String
  items : List AssetItem
  type : String
  source : String
deriving DecidableEq, Repr

/-- A value stored in the shared cache Map: either a resolution result
(under an `apod:<date>` key) or an asset result (under `asset:<id>`). -/
inductive CData where
  | apod (m : MediaOut)
  | asset (a : AssetOut)
deriving DecidableEq, Repr

/-- The mocked upstream world: one response function per outbound endpoint.
`none` models any failed/timed-out/non-200/empty-body request. -/
structure World where
  /-- APOD API response by requested date. -/
  apodApi : String → Option ApodRaw
  /-- Fetched HTML document by page URL (live APOD pages and snapshots). -/
  pages : String → Option PageDoc
  /-- Wayback availability response by original-page URL. -/
  wayback : String → Option WaybackResp
  /-- Images-api search response (`collection.items`) by year. -/
  imagesSearch : String → Option (List SearchItem)
  /-- Per-identifier asset listing (`collection.items`) by nasa_id. -/
  assets : String → Option (List AssetItem)

/-! ## URL and string helpers of the strategies -/

/-- `s.split('-')`, structurally over the character list (the accumulator
holds the current segment reversed). -/
def splitDashAux : List Char → List Char → List String
  | [], acc => [String.mk acc.reverse]
  | ch :: rest, acc =>
    if ch = '-' then String.mk acc.reverse :: splitDashAux rest []
    else splitDashAux rest (ch :: acc)

/-- JS `dateStr.split('-')`. -/
def splitDash (s : String) : List String :=
  splitDashAux s.data []

/-- JS `s.slice(-2)`: the last two characters (the whole string when
shorter). -/
def sliceLast2 (s : String) : String :=
  String.mk (s.data.drop (s.data.length - 2))

/-- `dateToApodPage(dateStr)`: `YYYY-MM-DD ↦ https://apod.nasa.gov/apod/apYYMMDD.html`
(`y.slice(-2)` keeps the last two characters). -/
def dateToApodPage (dateStr : String) : String :=
  let parts := splitDash dateStr
  let y := parts.getD 0 ""
  let m := parts.getD 1 ""
  let d := parts.getD 2 ""
  let yy := sliceLast2 y
  "https://apod.nasa.gov/apod/ap" ++ yy ++ m ++ d ++ ".html"

/-- Character-wise lowercasing (ASCII-relevant model of `toLowerCase` /
case-insensitive regex matching). -/
def lowerStr (s : String) : String :=
  String.mk (s.data.map Char.toLower)

/-- Prefix test over the underlying character lists. -/
def strStartsWith (s pre : String) : Bool :=
  pre.data.isPrefixOf s.data

/-- Whether `pat` occurs (as a contiguous run) in the character list. -/
def subOccurs (pat : List Char) : List Char → Bool
  | [] => pat.isEmpty
  | c :: rest => pat.isPrefixOf (c :: rest) || subOccurs pat rest

/-- Substring containment (the `/pat/i.test(href)` alternatives are plain
substring matches). -/
def containsSub (s pat : String) : Bool :=
  subOccurs pat.data s.data

/-- Suffix test over the underlying character lists (JS `endsWith`, the
anchored `\.(ext)$` regex tests). -/
def strEndsWith (s pat : String) : Bool :=
  pat.data.isSuffixOf s.data

/-- The anchor filter of `scrapeApodPage`:
`/image|apod|jpg|jpeg|png|gif|mov|mp4/i.test(href)` (case-insensitive
substring alternatives). -/
def anchorMatches (href : String) : Bool :=
  let h := lowerStr href
  containsSub h "image" || containsSub h "apod" || containsSub h "jpg" ||
  containsSub h "jpeg" || containsSub h "png" || containsSub h "gif" ||
  containsSub h "mov" || containsSub h "mp4"

/-- The still-image extension test `/\.(jpg|jpeg|png|gif)$/i`. -/
def isImageExt (href : String) : Bool :=
  let h := lowerStr href
  strEndsWith h ".jpg" || strEndsWith h ".jpeg" || strEndsWith h ".png" ||
  strEndsWith h ".gif"

/-- The base URL `scrapeApodPage` resolves scraped sources against. -/
def apodBase : String := "https://apod.nasa.gov/apod/"

/-- Whether a string is already an absolute http(s) URL. -/
def isAbsUrl (s : String) : Bool :=
  strStartsWith (lowerStr s) "http://" || strStartsWith (lowerStr s) "https://"

/-- Model of `new URL(src, 'https://apod.nasa.gov/apod/').href` for the
relevant cases: absolute URLs pass through, protocol-relative and
root-relative references are resolved against the base's scheme/origin,
anything else against the base path. -/
def urlResolve (src : String) : String :=
  if isAbsUrl src then src
  else if strStartsWith src "//" then "https:" ++ src
  else if strStartsWith src "/" then "https://apod.nasa.gov" ++ src
  else apodBase ++ src

/-- JS whitespace characters relevant to `/\s+/` (ASCII subset). -/
def isWsChar (c : Char) : Bool :=
  c = ' ' || c = '\t' || c = '\n' || c = '\r' || c = '\x0b' || c = '\x0c'

/-- Core of `replace(/\s+/g, ' ')`: each maximal whitespace run becomes one
space. The boolean tracks whether the previous character was whitespace. -/
def collapseWsAux : List Char → Bool → List Char
  | [], _ => []
  | ch :: cs, prevWs =>
    if isWsChar ch then
      if prevWs then collapseWsAux cs true
      else ' ' :: collapseWsAux cs true
    else ch :: collapseWsAux cs false

/-- `text.replace(/\s+/g, ' ')`. -/
def collapseWs (s : String) : String :=
  String.mk (collapseWsAux s.data false)

/-- JS `trim()`: strip leading and trailing whitespace. -/
def strTrim (s : String) : String :=
  String.mk (((s.data.dropWhile isWsChar).reverse.dropWhile isWsChar).reverse)

/-- JS `slice(0, n)`: the first `n` characters. -/
def strTake (s : String) (n : Nat) : String :=
  String.mk (s.data.take n)

/-- `/^\d{4}-\d{2}-\d{2}$/.test(s)`: exactly four digits, `-`, two digits,
`-`, two digits. Purely textual, no calendar check. -/
def datePattern (s : String) : Bool :=
  match s.toList with
  | [y1, y2, y3, y4, h1, m1, m2, h2, d1, d2] =>
    y1.isDigit && y2.isDigit && y3.isDigit && y4.isDigit && h1 == '-' &&
    m1.isDigit && m2.isDigit && h2 == '-' && d1.isDigit && d2.isDigit
  | _ => false

/-! ## Strategies -/

/-- `fetchApodApi(date)`: a successful request yields the response body
(`raw`); every failure path yields null. The `{source: 'apod-api', raw}`
wrapper is dropped since the route only ever reads `.raw`. -/
def fetchApodApi (w : World) (date : String) : Option ApodRaw :=
  w.apodApi date

/-- The result shape of `scrapeApodPage`. -/
structure ScrapeRaw where
  url : String
  title : Option String
  explanation : Option String
deriving DecidableEq, Repr

/-- The `src` selection of `scrapeApodPage`: the first `<a>` whose `href`
matches `anchorMatches` (taking its href when truthy), else the first
`<img>`'s `src` when truthy, else null. -/
def pickSrc (d : PageDoc) : Option String :=
  let src :=
    match d.anchors.find? anchorMatches with
    | some h => if h.isEmpty then none else some h
    | none => none
  match src with
  | some s => some s
  | none =>
    match d.imgs.head? with
    | some s => if s.isEmpty then none else some s
    | none => none

/-- `scrapeApodPage(pageUrl)`: fetch the document, take the title
(`<title>` text trimmed, else first `<b>` text trimmed), pick a media `src`
(`pickSrc`), fail when none, resolve it against `apodBase`, and collapse the
body text to at most 2000 characters as the explanation. -/
def scrapeApodPage (w : World) (pageUrl : String) : Option ScrapeRaw :=
  match w.pages pageUrl with
  | none => none
  | some d =>
    let title := jsOrS (strTrim d.titleTxt) (strTrim d.boldTxt)
    match pickSrc d with
    | none => none
    | some src =>
      let absolute := urlResolve src
      let explanation := strTake (strTrim (collapseWs d.bodyTxt)) 2000
      some { url := absolute, title := strToOpt title, explanation := strToOpt explanation }

/-- The snapshot-discovery step of `fetchWaybackAndScrape` on its own:
the closest available snapshot's URL, when the availability lookup reports
one. -/
def snapshotOf (w : World) (originalPage : String) : Option String :=
  match w.wayback originalPage with
  | none => none
  | some resp =>
    match resp.closest with
    | none => none
    | some cl => if cl.available then some cl.url else none

/-- `fetchWaybackAndScrape(originalPage)`: query the availability service;
when a closest available snapshot exists, scrape the snapshot URL with
`scrapeApodPage`; any failure yields null. -/
def fetchWaybackAndScrape (w : World) (originalPage : String) : Option ScrapeRaw :=
  match w.wayback originalPage with
  | none => none
  | some resp =>
    match resp.closest with
    | none => none
    | some cl =>
      if cl.available then scrapeApodPage w cl.url
      else none

/-- Loop body of `fetchImagesApiFallback`: iterate items in returned order,
skip items without links, return a result built from the first link matching
the image-extension pattern of the first item that has one. -/
def searchFirstImage (date : String) : List SearchItem → Option MediaOut
  | [] => none
  | item :: rest =>
    if item.links.isEmpty then searchFirstImage date rest
    else
      match item.links.find? (fun l => truthy l.href && isImageExt (ostr l.href)) with
      | some l =>
        if truthy l.href then
          let d := item.data.headD ⟨none, none, none⟩
          some { date := date
                 title := jsOr d.title none
                 explanation := jsOr d.description (jsOr d.description_508 none)
                 media_type := "image"
                 url := l.href
                 hdurl := none
                 source := "images-api-fallback" }
        else searchFirstImage date rest
      | none => searchFirstImage date rest

/-- `fetchImagesApiFallback(date)`: search the images API for keyword
`apod`, media type image, constrained to the date's year, and return the
first direct-image hit via `searchFirstImage`. -/
def fetchImagesApiFallback (w : World) (date : String) : Option MediaOut :=
  let year := (splitDash date).getD 0 ""
  match w.imagesSearch year with
  | none => none
  | some items => searchFirstImage date items

/-! ## The `/apod-proxy` route (server.js lines 187-258) -/

/-- Observable events of one handler call: the cache read plus each
strategy's upstream invocation, in order of occurrence. -/
inductive Ev where
  | cacheRead
  | primaryApi
  | pageScrape
  | wayback
  | search
  | assetFetch
deriving DecidableEq, Repr

/-- The `date` query parameter as Express may deliver it: absent, a string,
or a non-string value (e.g. a repeated parameter parsed as an array). -/
inductive Query where
  | missing
  | nonString
  | str (s : String)
deriving DecidableEq, Repr

/-- What the route sends back. -/
inductive ProxyOutcome where
  /-- 400 with an error message. -/
  | validationError (msg : String)
  /-- `{...cached, cached: true}` on a cache hit. -/
  | cachedHit (d : CData)
  /-- A freshly resolved result (no `cached` flag). -/
  | fresh (m : MediaOut)
  /-- 404 `No APOD found`. -/
  | notFound
deriving DecidableEq, Repr

/-- Outcome, post-call cache state, event trace. -/
structure ProxyResult where
  outcome : ProxyOutcome
  cache : Cache CData
  trace : List Ev
deriving Repr

/-- Strategy 1 as a result-or-null step: the API branch (lines 204-217).
Succeeds when the response exists and `raw.url || raw.hdurl` is truthy. -/
def tryApi (w : World) (date : String) : Option MediaOut :=
  match fetchApodApi w date with
  | none => none
  | some raw =>
    if truthy raw.url || truthy raw.hdurl then
      some { date := date
             title := jsOr raw.title none
             explanation := jsOr raw.explanation none
             media_type := jsOrStr raw.media_type "image"
             url := jsOr raw.url (jsOr raw.hdurl none)
             hdurl := jsOr raw.hdurl none
             source := "apod-api" }
    else none

/-- Strategy 2: the live page-scrape branch (lines 219-233). Succeeds when
the scrape yields a truthy `raw.url`. -/
def tryScrape (w : World) (date : String) : Option MediaOut :=
  match scrapeApodPage w (dateToApodPage date) with
  | none => none
  | some raw =>
    if raw.url.isEmpty then none
    else
      some { date := date
             title := raw.title
             explanation := raw.explanation
             media_type := "image"
             url := some raw.url
             hdurl := none
             source := "apod-scrape" }

/-- Strategy 3: the Wayback branch (lines 235-248). -/
def tryWayback (w : World) (date : String) : Option MediaOut :=
  match fetchWaybackAndScrape w (dateToApodPage date) with
  | none => none
  | some raw =>
    if raw.url.isEmpty then none
    else
      some { date := date
             title := raw.title
             explanation := raw.explanation
             media_type := "image"
             url := some raw.url
             hdurl := none
             source := "apod-wayback" }

/-- Strategy 4: the images-api search branch (lines 250-255). Succeeds when
the fallback result exists and its `url` is truthy. -/
def trySearch (w : World) (date : String) : Option MediaOut :=
  match fetchImagesApiFallback w date with
  | none => none
  | some r => if truthy r.url then some r else none

/-- The `/apod-proxy` handler: validate the `date` parameter, consult the
cache under `apod:<date>`, then run the four strategies in order with early
return, caching any fresh success under the default TTL; 404 when all fail. -/
def apodProxy (w : World) (c : Cache CData) (now : Nat) (q : Query) : ProxyResult :=
  match q with
  | .missing => ⟨.validationError "Missing required `date` query parameter (YYYY-MM-DD).", c, []⟩
  | .nonString => ⟨.validationError "Missing required `date` query parameter (YYYY-MM-DD).", c, []⟩
  | .str date =>
    if date.isEmpty then
      ⟨.validationError "Missing required `date` query parameter (YYYY-MM-DD).", c, []⟩
    else if !datePattern date then
      ⟨.validationError "Date must be in YYYY-MM-DD format.", c, []⟩
    else
      let key := "apod:" ++ date
      match cacheGet c key now with
      | (some d, c1) => ⟨.cachedHit d, c1, [.cacheRead]⟩
      | (none, c1) =>
        match tryApi w date with
        | some out =>
          ⟨.fresh out, cacheSet c1 key (.apod out) now CACHE_TTL_MS,
            [.cacheRead, .primaryApi]⟩
        | none =>
          match tryScrape w date with
          | some out =>
            ⟨.fresh out, cacheSet c1 key (.apod out) now CACHE_TTL_MS,
              [.cacheRead, .primaryApi, .pageScrape]⟩
          | none =>
            match tryWayback w date with
            | some out =>
              ⟨.fresh out, cacheSet c1 key (.apod out) now CACHE_TTL_MS,
                [.cacheRead, .primaryApi, .pageScrape, .wayback]⟩
            | none =>
              match trySearch w date with
              | some out =>
                ⟨.fresh out, cacheSet c1 key (.apod out) now CACHE_TTL_MS,
                  [.cacheRead, .primaryApi, .pageScrape, .wayback, .search]⟩
              | none =>
                ⟨.notFound, c1,
                  [.cacheRead, .primaryApi, .pageScrape, .wayback, .search]⟩

/-! ## `resolveAssetByNasaId` (server.js lines 41-69) -/

/-- The TTL the asset resolver passes to `cacheSet` (`24 * 60 * 60 * 1000`). -/
def ASSET_TTL_MS : Nat := 24 * 60 * 60 * 1000

/-- The images branch of the asset selection: filter links matching the
still-image pattern, take the last one's href as `best` (null when none). -/
def imagesAssetOut (items : List AssetItem) : AssetOut :=
  let images := items.filter (fun i => truthy i.href && isImageExt (ostr i.href))
  let best := match images.getLast? with
              | some i => i.href
              | none => none
  { best := jsOr best none, items := items, type := "image", source := "images-asset" }

/-- `resolveAssetByNasaId(nasaId)`: empty/missing id ↦ null; cache check on
`asset:<id>`; on miss, fetch the listing (null on any failure, uncached);
prefer the first `.mp4` link as a video, else `imagesAssetOut`; cache the
outcome (including a null `best`) for the asset TTL.
The `(some (.apod _))` branch is unreachable in runs of the server: `apod:`
and `asset:` key namespaces are disjoint (`asset_apod_keys_disjoint`). -/
def resolveAssetByNasaId (w : World) (c : Cache CData) (now : Nat) (nasaId : String) :
    Option AssetOut × Cache CData × List Ev :=
  if nasaId.isEmpty then (none, c, [])
  else
    let key := "asset:" ++ nasaId
    match cacheGet c key now with
    | (some (.asset a), c1) => (some a, c1, [.cacheRead])
    | (some (.apod _), c1) => (none, c1, [.cacheRead])
    | (none, c1) =>
      match w.assets nasaId with
      | none => (none, c1, [.cacheRead, .assetFetch])
      | some items =>
        match items.find? (fun i => truthy i.href && strEndsWith (ostr i.href) ".mp4") with
        | some mp4 =>
          if truthy mp4.href then
            let out : AssetOut :=
              { best := mp4.href, items := items, type := "video", source := "images-asset" }
            (some out, cacheSet c1 key (.asset out) now ASSET_TTL_MS, [.cacheRead, .assetFetch])
          else
            let out := imagesAssetOut items
            (some out, cacheSet c1 key (.asset out) now ASSET_TTL_MS, [.cacheRead, .assetFetch])
        | none =>
          let out := imagesAssetOut items
          (some out, cacheSet c1 key (.asset out) now ASSET_TTL_MS, [.cacheRead, .assetFetch])

/-! ## Predicates and concrete worlds used by the claim theorems -/

/-- A returned outcome has a usable URL: a validation error is impossible,
a cached or fresh result carries a truthy (non-null, non-empty) `url`, and
"not found" is the explicit failure signal. -/
def urlOk : ProxyOutcome → Prop
  | .validationError _ => False
  | .cachedHit (CData.apod m) => truthy m.url = true
  | .cachedHit (CData.asset _) => False
  | .fresh m => truthy m.url = true
  | .notFound => True

/-- Well-formedness of the shared cache, as the server maintains it: every
stored resolution result has a truthy `url`, and every `apod:`-namespaced
key stores a resolution result (not an asset result). -/
def cacheWF (c : Cache CData) : Prop :=
  (∀ p ∈ c, ∀ m, p.2.data = CData.apod m → truthy m.url = true) ∧
  (∀ p ∈ c, (∃ d, p.1 = "apod:" ++ d) → ∃ m, p.2.data = CData.apod m)

/-- A `date` query value the validation rejects: absent, non-string, or a
string not matching the pattern. -/
def malformedQuery : Query → Bool
  | .missing => true
  | .nonString => true
  | .str s => !datePattern s

/-- Whether an outcome is the 400 validation error. -/
def isValidationError : ProxyOutcome → Bool
  | .validationError _ => true
  | _ => false

/-- A world in which every upstream request fails. -/
def wNone : World :=
  ⟨fun _ => none, fun _ => none, fun _ => none, fun _ => none, fun _ => none⟩

/-- The world of the C2 witness: the primary API fails, the live APOD page
for `2025-10-01` scrapes successfully. -/
def wC2 : World :=
  { apodApi := fun _ => none
    pages := fun u =>
      if u == "https://apod.nasa.gov/apod/ap251001.html" then
        some { titleTxt := " APOD: A Nebula ", boldTxt := "A Nebula",
               anchors := ["image/2510/neb_big.jpg"],
               imgs := ["image/2510/neb_small.jpg"],
               bodyTxt := "A Nebula  explained." }
      else none
    wayback := fun _ => none
    imagesSearch := fun _ => none
    assets := fun _ => none }

/-- The result the page-scrape strategy yields in the C2 witness world. -/
def outC2 : MediaOut :=
  { date := "2025-10-01", title := some "APOD: A Nebula",
    explanation := some "A Nebula explained.", media_type := "image",
    url := some "https://apod.nasa.gov/apod/image/2510/neb_big.jpg",
    hdurl := none, source := "apod-scrape" }

/-- The world of the C4 witness: one asset listing with three ascending-size
still-image links. -/
def wC4 : World :=
  { apodApi := fun _ => none
    pages := fun _ => none
    wayback := fun _ => none
    imagesSearch := fun _ => none
    assets := fun id =>
      if id == "as11-40-5874" then
        some [⟨some "a~thumb.jpg"⟩, ⟨some "a~medium.jpg"⟩, ⟨some "a~orig.jpg"⟩]
      else none }

/-- The world of the C5 witness: the primary API answers one date. -/
def wC5 : World :=
  { apodApi := fun d =>
      if d == "2024-06-15" then
        some { url := some "https://apod.nasa.gov/apod/image/2406/x.jpg", hdurl := none,
               title := some "X", explanation := none, media_type := some "image" }
      else none
    pages := fun _ => none
    wayback := fun _ => none
    imagesSearch := fun _ => none
    assets := fun _ => none }

/-- The fresh result of the first C5 call. -/
def mC5 : MediaOut :=
  { date := "2024-06-15", title := some "X", explanation := none,
    media_type := "image", url := some "https://apod.nasa.gov/apod/image/2406/x.jpg",
    hdurl := none, source := "apod-api" }

/-- The world of the C8 scenario: the primary API answers `2025-10-01` with
`{url: "https://x/img.jpg", title: "NGC 6960", media_type: "image"}` (no
`hdurl`, no `explanation`); every other upstream fails. -/
def wC8 : World :=
  { apodApi := fun d =>
      if d == "2025-10-01" then
        some { url := some "https://x/img.jpg", hdurl := none, title := some "NGC 6960",
               explanation := none, media_type := some "image" }
      else none
    pages := fun _ => none
    wayback := fun _ => none
    imagesSearch := fun _ => none
    assets := fun _ => none }

/-- A read of key `k` at time `t` can only deliver `v` from a present,
unexpired entry holding exactly `v`. -/
def unexpiredAt (c : Cache CData) (k : String) (t : Nat) (v : CData) : Prop :=
  ∃ e, cacheLookup c k = some e ∧ v = e.data ∧ t ≤ e.expires

/-- A successful scrape result's `url` is exactly the media reference picked
from the fetched document by the shared extractor, resolved against the
known base URL into an absolute URL. -/
def extractsResolvedFrom (w : World) (url : String) (r : ScrapeRaw) : Prop :=
  ∃ d src, w.pages url = some d ∧ pickSrc d = some src ∧
    r.url = urlResolve src ∧ isAbsUrl r.url = true

/-- The world of the C9 witness: the Wayback availability lookup knows a
snapshot of the 1997-03-01 page, and that snapshot's document scrapes to an
image link. -/
def wC9 : World :=
  { apodApi := fun _ => none
    pages := fun u =>
      if u == "https://web.archive.org/web/1997/ap970301.html" then
        some { titleTxt := "APOD March 1", boldTxt := "Comet",
               anchors := ["lib/aptree.html", "image/9703/comet_big.gif"],
               imgs := [], bodyTxt := "Comet Hale-Bopp" }
      else none
    wayback := fun u =>
      if u == "https://apod.nasa.gov/apod/ap970301.html" then
        some ⟨some ⟨true, "https://web.archive.org/web/1997/ap970301.html"⟩⟩
      else none
    imagesSearch := fun _ => none
    assets := fun _ => none }

/-- The world of the C6 witness: every resolution upstream fails; the asset
listing for one id exists but offers neither an `.mp4` nor a still-image
link. -/
def wC6 : World :=
  { apodApi := fun _ => none
    pages := fun _ => none
    wayback := fun _ => none
    imagesSearch := fun _ => none
    assets := fun id =>
      if id == "PIA00001" then some [⟨some "doc.pdf"⟩, ⟨none⟩]
      else none }

/-- A stored resolution result used by the C7 witness cache. -/
def mC7 : MediaOut :=
  { date := "2020-01-01", title := none, explanation := none,
    media_type := "image", url := some "https://apod.nasa.gov/apod/image/2001/y.jpg",
    hdurl := none, source := "apod-api" }

/-- The C7 witness cache: one entry for `apod:2020-01-01` that expired at
time 5. -/
def cC7 : Cache CData :=
  [("apod:2020-01-01", ⟨CData.apod mC7, 5⟩)]

/-! ## Helper lemmas -/

theorem truthy_none : truthy none = false := rfl

theorem truthy_jsOr (a b : Option String) :
    truthy (jsOr a b) = (truthy a || truthy b) := by
  cases ha : truthy a <;> simp [jsOr, ha]

theorem datePattern_ne_empty {s : String} (h : datePattern s = true) :
    s.isEmpty = false := by
  by_contra hne
  have : s = "" := (String.isEmpty_iff s).mp (by revert hne; cases s.isEmpty <;> simp)
  subst this
  exact absurd h (by decide)

theorem cacheLookup_some_mem {α : Type} {c : Cache α} {k : String} {e : CacheEntry α}
    (h : cacheLookup c k = some e) : (k, e) ∈ c := by
  unfold cacheLookup at h
  cases hf : c.find? (fun p => p.1 == k) with
  | none => simp [hf] at h
  | some p =>
    simp only [hf, Option.map_some', Option.some.injEq] at h
    have hm := List.mem_of_find?_eq_some hf
    have hp := List.find?_some hf
    have hk : p.1 = k := eq_of_beq hp
    have hpe : p = (k, e) := by
      cases p
      simp only [Prod.mk.injEq]
      exact ⟨hk, h⟩
    rwa [hpe] at hm

theorem cacheLookup_cacheSet_self {α : Type} (c : Cache α) (k : String) (d : α)
    (now ttl : Nat) :
    cacheLookup (cacheSet c k d now ttl) k = some ⟨d, now + ttl⟩ := by
  unfold cacheLookup cacheSet
  rw [List.find?_cons_of_pos _ (by simp)]
  rfl

theorem cacheLookup_cacheDelete_self {α : Type} (c : Cache α) (k : String) :
    cacheLookup (cacheDelete c k) k = none := by
  unfold cacheLookup cacheDelete
  cases hf : (c.filter (fun p => p.1 != k)).find? (fun p => p.1 == k) with
  | none => simp
  | some p =>
    have h1 := List.find?_some hf
    have h2 := List.of_mem_filter (List.mem_of_find?_eq_some hf)
    simp only [bne_iff_ne, ne_eq, decide_eq_true_eq] at h2
    exact absurd (eq_of_beq h1) (by simpa using h2)

/-- `cacheGet` hitting implies the value came unexpired from the store and
the store is unchanged. -/
theorem cacheGet_some {α : Type} {c c1 : Cache α} {k : String} {now : Nat} {v : α}
    (h : cacheGet c k now = (some v, c1)) :
    ∃ e, cacheLookup c k = some e ∧ e.data = v ∧ now ≤ e.expires ∧ c1 = c := by
  unfold cacheGet at h
  cases hl : cacheLookup c k with
  | none => simp [hl] at h
  | some e =>
    simp only [hl] at h
    by_cases hx : now > e.expires
    · simp [hx] at h
    · simp only [hx, if_false] at h
      rw [Prod.mk.injEq, Option.some.injEq] at h
      exact ⟨e, rfl, h.1, Nat.le_of_not_lt hx, h.2.symm⟩

/-- `cacheGet` missing leaves no entry for the key in the returned store. -/
theorem cacheGet_none_lookup {α : Type} {c c1 : Cache α} {k : String} {now : Nat}
    (h : cacheGet c k now = (none, c1)) : cacheLookup c1 k = none := by
  unfold cacheGet at h
  cases hl : cacheLookup c k with
  | none =>
    simp only [hl] at h
    rw [Prod.mk.injEq] at h
    rw [← h.2, hl]
  | some e =>
    simp only [hl] at h
    by_cases hx : now > e.expires
    · simp only [hx, if_true] at h
      rw [Prod.mk.injEq] at h
      rw [← h.2]
      exact cacheLookup_cacheDelete_self c k
    · simp [hx] at h

theorem tryApi_url {w : World} {date : String} {out : MediaOut}
    (h : tryApi w date = some out) : truthy out.url = true := by
  unfold tryApi at h
  cases hA : fetchApodApi w date with
  | none => simp [hA] at h
  | some raw =>
    simp only [hA] at h
    by_cases hg : (truthy raw.url || truthy raw.hdurl) = true
    · simp only [hg, if_true, Option.some.injEq] at h
      rw [← h]
      simp [truthy_jsOr, truthy_none]
      simpa using hg
    · simp [hg] at h

theorem tryApi_source {w : World} {date : String} {out : MediaOut}
    (h : tryApi w date = some out) : out.source = "apod-api" := by
  unfold tryApi at h
  cases hA : fetchApodApi w date with
  | none => simp [hA] at h
  | some raw =>
    simp only [hA] at h
    by_cases hg : (truthy raw.url || truthy raw.hdurl) = true
    · simp only [hg, if_true, Option.some.injEq] at h
      rw [← h]
    · simp [hg] at h

theorem tryScrape_url {w : World} {date : String} {out : MediaOut}
    (h : tryScrape w date = some out) : truthy out.url = true := by
  unfold tryScrape at h
  cases hS : scrapeApodPage w (dateToApodPage date) with
  | none => simp [hS] at h
  | some raw =>
    simp only [hS] at h
    by_cases hg : raw.url.isEmpty = true
    · simp [hg] at h
    · simp only [hg, Bool.false_eq_true, if_neg, if_false, Option.some.injEq] at h
      rw [← h]
      simp [truthy]
      simpa using hg

theorem tryScrape_source {w : World} {date : String} {out : MediaOut}
    (h : tryScrape w date = some out) : out.source = "apod-scrape" := by
  unfold tryScrape at h
  cases hS : scrapeApodPage w (dateToApodPage date) with
  | none => simp [hS] at h
  | some raw =>
    simp only [hS] at h
    by_cases hg : raw.url.isEmpty = true
    · simp [hg] at h
    · simp only [hg, Bool.false_eq_true, if_neg, if_false, Option.some.injEq] at h
      rw [← h]

theorem tryWayback_url {w : World} {date : String} {out : MediaOut}
    (h : tryWayback w date = some out) : truthy out.url = true := by
  unfold tryWayback at h
  cases hS : fetchWaybackAndScrape w (dateToApodPage date) with
  | none => simp [hS] at h
  | some raw =>
    simp only [hS] at h
    by_cases hg : raw.url.isEmpty = true
    · simp [hg] at h
    · simp only [hg, Bool.false_eq_true, if_neg, if_false, Option.some.injEq] at h
      rw [← h]
      simp [truthy]
      simpa using hg

theorem tryWayback_source {w : World} {date : String} {out : MediaOut}
    (h : tryWayback w date = some out) : out.source = "apod-wayback" := by
  unfold tryWayback at h
  cases hS : fetchWaybackAndScrape w (dateToApodPage date) with
  | none => simp [hS] at h
  | some raw =>
    simp only [hS] at h
    by_cases hg : raw.url.isEmpty = true
    · simp [hg] at h
    · simp only [hg, Bool.false_eq_true, if_neg, if_false, Option.some.injEq] at h
      rw [← h]

theorem trySearch_url {w : World} {date : String} {out : MediaOut}
    (h : trySearch w date = some out) : truthy out.url = true := by
  unfold trySearch at h
  cases hS : fetchImagesApiFallback w date with
  | none => simp [hS] at h
  | some r =>
    simp only [hS] at h
    by_cases hg : truthy r.url = true
    · simp only [hg, if_true, Option.some.injEq] at h
      rw [← h]; exact hg
    · simp [hg] at h

theorem searchFirstImage_source {date : String} {items : List SearchItem} {r : MediaOut}
    (h : searchFirstImage date items = some r) : r.source = "images-api-fallback" := by
  induction items with
  | nil => simp [searchFirstImage] at h
  | cons item rest ih =>
    unfold searchFirstImage at h
    by_cases he : item.links.isEmpty = true
    · simp only [he, if_true] at h
      exact ih h
    · simp only [he, Bool.false_eq_true, if_false] at h
      cases hf : item.links.find? (fun l => truthy l.href && isImageExt (ostr l.href)) with
      | none =>
        simp only [hf] at h
        exact ih h
      | some l =>
        simp only [hf] at h
        by_cases ht : truthy l.href = true
        · simp only [ht, if_true, Option.some.injEq] at h
          rw [← h]
        · simp only [ht, Bool.false_eq_true, if_false] at h
          exact ih h

theorem fetchImagesApiFallback_source {w : World} {date : String} {r : MediaOut}
    (h : fetchImagesApiFallback w date = some r) : r.source = "images-api-fallback" := by
  unfold fetchImagesApiFallback at h
  simp only [] at h
  split at h
  · exact absurd h (by simp)
  · exact searchFirstImage_source h

theorem trySearch_source {w : World} {date : String} {out : MediaOut}
    (h : trySearch w date = some out) : out.source = "images-api-fallback" := by
  unfold trySearch at h
  cases hS : fetchImagesApiFallback w date with
  | none => simp [hS] at h
  | some r =>
    simp only [hS] at h
    by_cases hg : truthy r.url = true
    · simp only [hg, if_true, Option.some.injEq] at h
      rw [← h]
      exact fetchImagesApiFallback_source hS
    · simp [hg] at h

/-! ## Claim theorems -/

/-- C1: for every date string matching `^\d{4}-\d{2}-\d{2}$`, the
`/apod-proxy` resolver returns either a result whose `url` is a non-empty
string (cached or fresh) or an explicit not-found — never a result with an
empty or null `url` (assuming the cache is well-formed, as the server's own
writes keep it). -/
theorem C1_resolve_url_nonempty (w : World) (c : Cache CData) (now : Nat) (date : String)
    (hd : datePattern date = true) (hc : cacheWF c) :
    urlOk (apodProxy w c now (.str date)).outcome := by
  have hne := datePattern_ne_empty hd
  unfold apodProxy
  simp only [hne, Bool.false_eq_true, if_false, hd, Bool.not_true]
  cases hg : cacheGet c ("apod:" ++ date) now with
  | mk v c1 =>
    cases v with
    | some d =>
      simp only [hg]
      obtain ⟨e, hl, hed, _, _⟩ := cacheGet_some hg
      have hmem := cacheLookup_some_mem hl
      obtain ⟨m, hm⟩ := hc.2 _ hmem ⟨date, rfl⟩
      have hurl := hc.1 _ hmem m hm
      have hdm : d = CData.apod m := by rw [← hed, hm]
      subst hdm
      exact hurl
    | none =>
      simp only [hg]
      cases hA : tryApi w date with
      | some out =>
        simp only [hA]
        exact tryApi_url hA
      | none =>
        simp only [hA]
        cases hS : tryScrape w date with
        | some out =>
          simp only [hS]
          exact tryScrape_url hS
        | none =>
          simp only [hS]
          cases hW : tryWayback w date with
          | some out =>
            simp only [hW]
            exact tryWayback_url hW
          | none =>
            simp only [hW]
            cases hF : trySearch w date with
            | some out =>
              simp only [hF]
              exact trySearch_url hF
            | none =>
              simp only [hF]
              trivial

/-- Witness for C1 at a concrete input (all-failing world, empty cache). -/
theorem C1_resolve_url_nonempty_witness :
    urlOk (apodProxy wNone [] 0 (.str "2025-10-01")).outcome :=
  C1_resolve_url_nonempty wNone [] 0 "2025-10-01" (by decide)
    ⟨by simp, by simp⟩

/-- C3: for every malformed `date` (missing, non-string, or failing the
pattern), the route returns a validation error with the cache untouched and
an empty event trace — no cache read or write, no strategy invocation, no
network call. -/
theorem C3_validation_short_circuit (w : World) (c : Cache CData) (now : Nat) (q : Query)
    (h : malformedQuery q = true) :
    isValidationError (apodProxy w c now q).outcome = true ∧
    (apodProxy w c now q).cache = c ∧
    (apodProxy w c now q).trace = [] := by
  cases q with
  | missing => exact ⟨rfl, rfl, rfl⟩
  | nonString => exact ⟨rfl, rfl, rfl⟩
  | str s =>
    simp only [malformedQuery, Bool.not_eq_true'] at h
    unfold apodProxy
    by_cases he : s.isEmpty = true
    · simp only [he, if_true]
      exact ⟨rfl, by simp, by simp⟩
    · simp only [he, Bool.false_eq_true, if_false, h, Bool.not_false, if_true]
      exact ⟨rfl, by simp, by simp⟩

/-- Witness for C3 at a concrete input (a string failing the pattern). -/
theorem C3_validation_short_circuit_witness :
    isValidationError (apodProxy wNone [] 0 (.str "2025/10/01")).outcome = true ∧
    (apodProxy wNone [] 0 (.str "2025/10/01")).cache = [] ∧
    (apodProxy wNone [] 0 (.str "2025/10/01")).trace = [] :=
  C3_validation_short_circuit wNone [] 0 (.str "2025/10/01") (by decide)

/-- C8: on date `2025-10-01` with the primary API returning
`{url: "https://x/img.jpg", title: "NGC 6960", media_type: "image"}`, the
route returns a fresh result with exactly that date, title, media type and
url, tagged with the primary-API source. -/
theorem C8_primary_api_scenario :
    ∃ m, (apodProxy wC8 [] 0 (.str "2025-10-01")).outcome = .fresh m ∧
      m.date = "2025-10-01" ∧ m.title = some "NGC 6960" ∧
      m.media_type = "image" ∧ m.url = some "https://x/img.jpg" ∧
      m.source = "apod-api" :=
  ⟨{ date := "2025-10-01", title := some "NGC 6960", explanation := none,
     media_type := "image", url := some "https://x/img.jpg", hdurl := none,
     source := "apod-api" }, by decide, rfl, rfl, rfl, rfl, rfl⟩

/-- C10: date validation is purely textual — `2025-13-99` matches the
pattern although it is not a calendar date, and the route proceeds past
validation to the cache lookup and the full strategy chain for it (in the
all-failing world all four strategies run); no world, cache or clock makes
the route reject `2025-13-99` as a validation error. -/
theorem C10_textual_validation :
    datePattern "2025-13-99" = true ∧
    (apodProxy wNone [] 0 (.str "2025-13-99")).trace =
      [Ev.cacheRead, Ev.primaryApi, Ev.pageScrape, Ev.wayback, Ev.search] ∧
    (apodProxy wNone [] 0 (.str "2025-13-99")).outcome = .notFound ∧
    (∀ (w : World) (c : Cache CData) (now : Nat),
        isValidationError (apodProxy w c now (.str "2025-13-99")).outcome = false) := by
  refine ⟨by decide, by decide, by decide, ?_⟩
  intro w c now
  unfold apodProxy
  simp only [show ("2025-13-99".isEmpty) = false from rfl, Bool.false_eq_true, if_false,
    show datePattern "2025-13-99" = true from rfl, Bool.not_true]
  cases hg : cacheGet c ("apod:" ++ "2025-13-99") now with
  | mk v c1 =>
    cases v with
    | some d => simp [hg, isValidationError]
    | none =>
      simp only [hg]
      cases hA : tryApi w "2025-13-99" with
      | some out => simp [hA, isValidationError]
      | none =>
        simp only [hA]
        cases hS : tryScrape w "2025-13-99" with
        | some out => simp [hS, isValidationError]
        | none =>
          simp only [hS]
          cases hW : tryWayback w "2025-13-99" with
          | some out => simp [hW, isValidationError]
          | none =>
            simp only [hW]
            cases hF : trySearch w "2025-13-99" with
            | some out => simp [hF, isValidationError]
            | none => simp [hF, isValidationError]

/-- C2: on an uncached valid date, the strategies run strictly in the order
primary API → page scrape → archived snapshot → keyword search, stopping at
the first that yields a result with a truthy url: whichever strategy
succeeds first determines the whole handler result, the trace contains
exactly the strategies up to and including it (none after), and the result's
`source` is that strategy's tag. -/
theorem C2_strategy_order (w : World) (c c1 : Cache CData) (now : Nat) (date : String)
    (out : MediaOut)
    (hd : datePattern date = true)
    (hmiss : cacheGet c ("apod:" ++ date) now = (none, c1)) :
    (tryApi w date = some out →
       apodProxy w c now (.str date) =
         ⟨.fresh out, cacheSet c1 ("apod:" ++ date) (.apod out) now CACHE_TTL_MS,
          [.cacheRead, .primaryApi]⟩ ∧
       out.source = "apod-api") ∧
    (tryApi w date = none → tryScrape w date = some out →
       apodProxy w c now (.str date) =
         ⟨.fresh out, cacheSet c1 ("apod:" ++ date) (.apod out) now CACHE_TTL_MS,
          [.cacheRead, .primaryApi, .pageScrape]⟩ ∧
       out.source = "apod-scrape") ∧
    (tryApi w date = none → tryScrape w date = none → tryWayback w date = some out →
       apodProxy w c now (.str date) =
         ⟨.fresh out, cacheSet c1 ("apod:" ++ date) (.apod out) now CACHE_TTL_MS,
          [.cacheRead, .primaryApi, .pageScrape, .wayback]⟩ ∧
       out.source = "apod-wayback") ∧
    (tryApi w date = none → tryScrape w date = none → tryWayback w date = none →
       trySearch w date = some out →
       apodProxy w c now (.str date) =
         ⟨.fresh out, cacheSet c1 ("apod:" ++ date) (.apod out) now CACHE_TTL_MS,
          [.cacheRead, .primaryApi, .pageScrape, .wayback, .search]⟩ ∧
       out.source = "images-api-fallback") := by
  have hne := datePattern_ne_empty hd
  refine ⟨?_, ?_, ?_, ?_⟩
  · intro hA
    unfold apodProxy
    simp only [hne, Bool.false_eq_true, if_false, hd, Bool.not_true, hmiss, hA]
    exact ⟨by first | rfl | trivial, tryApi_source hA⟩
  · intro hA hS
    unfold apodProxy
    simp only [hne, Bool.false_eq_true, if_false, hd, Bool.not_true, hmiss, hA, hS]
    exact ⟨by first | rfl | trivial, tryScrape_source hS⟩
  · intro hA hS hW
    unfold apodProxy
    simp only [hne, Bool.false_eq_true, if_false, hd, Bool.not_true, hmiss, hA, hS, hW]
    exact ⟨by first | rfl | trivial, tryWayback_source hW⟩
  · intro hA hS hW hF
    unfold apodProxy
    simp only [hne, Bool.false_eq_true, if_false, hd, Bool.not_true, hmiss, hA, hS, hW, hF]
    exact ⟨by first | rfl | trivial, trySearch_source hF⟩

/-- Witness for C2 at a concrete input: primary API mocked to fail, page
scrape mocked to succeed — the result is the scrape result, the trace stops
at the scrape, and the source tag is the scrape tag. -/
theorem C2_strategy_order_witness :
    apodProxy wC2 [] 0 (.str "2025-10-01") =
      ⟨.fresh outC2, cacheSet [] ("apod:" ++ "2025-10-01") (.apod outC2) 0 CACHE_TTL_MS,
       [.cacheRead, .primaryApi, .pageScrape]⟩ ∧
    outC2.source = "apod-scrape" :=
  (C2_strategy_order wC2 [] [] 0 "2025-10-01" outC2 (by decide) rfl).2.1 rfl (by decide)

/-- C4: for a per-identifier listing fetched by the asset resolver: (1) when
some link ends in `.mp4` (the motion-media extension), `best` is the first
such link and `type` is `"video"`; (2) otherwise, when links match the
still-image extensions, `best` is the **last** such link in the returned
order and `type` is `"image"`; (3) otherwise `best` is null — and in every
case the raw `items` list is returned unchanged. -/
theorem C4_asset_selection (w : World) (c c1 : Cache CData) (now : Nat) (nasaId : String)
    (items : List AssetItem)
    (hid : nasaId.isEmpty = false)
    (hmiss : cacheGet c ("asset:" ++ nasaId) now = (none, c1))
    (hfetch : w.assets nasaId = some items) :
    (∀ i, items.find? (fun i => truthy i.href && strEndsWith (ostr i.href) ".mp4") = some i →
       (resolveAssetByNasaId w c now nasaId).1 =
         some { best := i.href, items := items, type := "video", source := "images-asset" }) ∧
    (items.find? (fun i => truthy i.href && strEndsWith (ostr i.href) ".mp4") = none →
       (resolveAssetByNasaId w c now nasaId).1 = some (imagesAssetOut items)) ∧
    (∀ j, (items.filter (fun i => truthy i.href && isImageExt (ostr i.href))).getLast? = some j →
       (imagesAssetOut items).best = j.href ∧ (imagesAssetOut items).type = "image") ∧
    (items.filter (fun i => truthy i.href && isImageExt (ostr i.href)) = [] →
       (imagesAssetOut items).best = none) ∧
    (imagesAssetOut items).items = items := by
  refine ⟨?_, ?_, ?_, ?_, rfl⟩
  · intro i hf
    have hp := List.find?_some hf
    rw [Bool.and_eq_true] at hp
    unfold resolveAssetByNasaId
    simp only [hid, Bool.false_eq_true, if_false, hmiss, hfetch, hf, hp.1, if_true]
  · intro hf
    unfold resolveAssetByNasaId
    simp only [hid, Bool.false_eq_true, if_false, hmiss, hfetch, hf]
  · intro j hj
    have hjm : j ∈ items.filter (fun i => truthy i.href && isImageExt (ostr i.href)) := by
      obtain ⟨hne, hj2⟩ := List.mem_getLast?_eq_getLast (Option.mem_def.mpr hj)
      rw [hj2]
      exact List.getLast_mem hne
    have hp := List.of_mem_filter hjm
    rw [Bool.and_eq_true] at hp
    constructor
    · unfold imagesAssetOut
      simp only [hj, jsOr, hp.1, if_true]
    · rfl
  · intro hf
    unfold imagesAssetOut
    simp only [hf]
    rfl

/-- Witness for C4 at a concrete input: a listing of three still-image links
in ascending-size order — `best` is the third (last) link, `type` is
`"image"`. -/
theorem C4_asset_selection_witness :
    (imagesAssetOut [⟨some "a~thumb.jpg"⟩, ⟨some "a~medium.jpg"⟩, ⟨some "a~orig.jpg"⟩]).best =
      (AssetItem.mk (some "a~orig.jpg")).href ∧
    (imagesAssetOut [⟨some "a~thumb.jpg"⟩, ⟨some "a~medium.jpg"⟩,
      ⟨some "a~orig.jpg"⟩]).type = "image" :=
  (C4_asset_selection wC4 [] [] 0 "as11-40-5874"
    [⟨some "a~thumb.jpg"⟩, ⟨some "a~medium.jpg"⟩, ⟨some "a~orig.jpg"⟩]
    (by decide) rfl (by decide)).2.2.1 ⟨some "a~orig.jpg"⟩ (by decide)

/-- A fresh resolution leaves exactly the fresh result under `apod:<date>`
in the cache, with the default TTL. -/
theorem apodProxy_fresh_lookup {w : World} {c : Cache CData} {now : Nat} {date : String}
    {m : MediaOut}
    (h : (apodProxy w c now (.str date)).outcome = .fresh m) :
    cacheLookup (apodProxy w c now (.str date)).cache ("apod:" ++ date) =
      some ⟨CData.apod m, now + CACHE_TTL_MS⟩ := by
  unfold apodProxy at h ⊢
  cases he : date.isEmpty with
  | true => simp [he] at h
  | false =>
    simp only [he, Bool.false_eq_true, if_false] at h ⊢
    cases hd : datePattern date with
    | false => simp [hd] at h
    | true =>
      simp only [hd, Bool.not_true, Bool.false_eq_true, if_false] at h ⊢
      cases hg : cacheGet c ("apod:" ++ date) now with
      | mk v c1 =>
        cases v with
        | some d => simp [hg] at h
        | none =>
          simp only [hg] at h ⊢
          cases hA : tryApi w date with
          | some out =>
            simp only [hA] at h ⊢
            have hout : out = m := by simpa using h
            subst hout
            exact cacheLookup_cacheSet_self c1 _ _ now CACHE_TTL_MS
          | none =>
            simp only [hA] at h ⊢
            cases hS : tryScrape w date with
            | some out =>
              simp only [hS] at h ⊢
              have hout : out = m := by simpa using h
              subst hout
              exact cacheLookup_cacheSet_self c1 _ _ now CACHE_TTL_MS
            | none =>
              simp only [hS] at h ⊢
              cases hW : tryWayback w date with
              | some out =>
                simp only [hW] at h ⊢
                have hout : out = m := by simpa using h
                subst hout
                exact cacheLookup_cacheSet_self c1 _ _ now CACHE_TTL_MS
              | none =>
                simp only [hW] at h ⊢
                cases hF : trySearch w date with
                | some out =>
                  simp only [hF] at h ⊢
                  have hout : out = m := by simpa using h
                  subst hout
                  exact cacheLookup_cacheSet_self c1 _ _ now CACHE_TTL_MS
                | none => simp [hF] at h

/-- C5: when a first call on a valid date resolves freshly (first call
successful), a second call within the TTL is a pure cache hit: it issues no
strategy/upstream calls (trace is just the cache read), leaves the cache
unchanged, and returns the structurally identical result, distinguished only
by being delivered through the served-from-cache branch. -/
theorem C5_second_call_cached (w : World) (c : Cache CData) (now now2 : Nat)
    (date : String) (m : MediaOut)
    (hd : datePattern date = true)
    (h1 : (apodProxy w c now (.str date)).outcome = .fresh m)
    (h2 : now2 ≤ now + CACHE_TTL_MS) :
    apodProxy w ((apodProxy w c now (.str date)).cache) now2 (.str date) =
      ⟨.cachedHit (CData.apod m), (apodProxy w c now (.str date)).cache, [.cacheRead]⟩ := by
  have hl := apodProxy_fresh_lookup h1
  have hne := datePattern_ne_empty hd
  have hget : cacheGet ((apodProxy w c now (.str date)).cache) ("apod:" ++ date) now2 =
      (some (CData.apod m), (apodProxy w c now (.str date)).cache) := by
    have hng : ¬ now2 > now + CACHE_TTL_MS := not_lt.mpr h2
    unfold cacheGet
    rw [hl]
    simp only [hng, if_false]
  set cA := (apodProxy w c now (.str date)).cache with hcA
  unfold apodProxy
  simp only [hne, Bool.false_eq_true, if_false, hd, Bool.not_true, hget]

/-- Witness for C5 at a concrete input (second call immediately after the
first). -/
theorem C5_second_call_cached_witness :
    apodProxy wC5 ((apodProxy wC5 [] 0 (.str "2024-06-15")).cache) 0 (.str "2024-06-15") =
      ⟨.cachedHit (CData.apod mC5), (apodProxy wC5 [] 0 (.str "2024-06-15")).cache,
       [.cacheRead]⟩ :=
  C5_second_call_cached wC5 [] 0 0 "2024-06-15" mC5 (by decide) (by decide) (by decide)

/-- C6: caching on failure is asymmetric. When every strategy fails, the
route answers not-found, the cache stays exactly the post-lookup store (no
negative caching), and a retry on that same store re-runs the full strategy
chain. The asset resolver, by contrast, caches even the outcome whose
`best` is null, under `asset:<id>` with the default asset TTL. -/
theorem C6_failure_caching_asymmetry
    (w : World) (c c1 ca ca1 : Cache CData) (now : Nat) (date nasaId : String)
    (items : List AssetItem)
    (hd : datePattern date = true)
    (hmiss : cacheGet c ("apod:" ++ date) now = (none, c1))
    (hA : tryApi w date = none) (hS : tryScrape w date = none)
    (hW : tryWayback w date = none) (hF : trySearch w date = none)
    (hid : nasaId.isEmpty = false)
    (hamiss : cacheGet ca ("asset:" ++ nasaId) now = (none, ca1))
    (hfetch : w.assets nasaId = some items)
    (hnomp4 : items.find? (fun i => truthy i.href && strEndsWith (ostr i.href) ".mp4") = none)
    (hnoimg : items.filter (fun i => truthy i.href && isImageExt (ostr i.href)) = []) :
    apodProxy w c now (.str date) =
      ⟨.notFound, c1, [.cacheRead, .primaryApi, .pageScrape, .wayback, .search]⟩ ∧
    apodProxy w c1 now (.str date) =
      ⟨.notFound, c1, [.cacheRead, .primaryApi, .pageScrape, .wayback, .search]⟩ ∧
    (imagesAssetOut items).best = none ∧
    resolveAssetByNasaId w ca now nasaId =
      (some (imagesAssetOut items),
       cacheSet ca1 ("asset:" ++ nasaId) (.asset (imagesAssetOut items)) now ASSET_TTL_MS,
       [.cacheRead, .assetFetch]) ∧
    cacheLookup (resolveAssetByNasaId w ca now nasaId).2.1 ("asset:" ++ nasaId) =
      some ⟨.asset (imagesAssetOut items), now + ASSET_TTL_MS⟩ := by
  have hne := datePattern_ne_empty hd
  have hl1 : cacheLookup c1 ("apod:" ++ date) = none := cacheGet_none_lookup hmiss
  have hmiss2 : cacheGet c1 ("apod:" ++ date) now = (none, c1) := by
    unfold cacheGet
    rw [hl1]
  have h4 : resolveAssetByNasaId w ca now nasaId =
      (some (imagesAssetOut items),
       cacheSet ca1 ("asset:" ++ nasaId) (.asset (imagesAssetOut items)) now ASSET_TTL_MS,
       [.cacheRead, .assetFetch]) := by
    unfold resolveAssetByNasaId
    simp only [hid, Bool.false_eq_true, if_false, hamiss, hfetch, hnomp4]
  refine ⟨?_, ?_, ?_, h4, ?_⟩
  · unfold apodProxy
    simp only [hne, Bool.false_eq_true, if_false, hd, Bool.not_true, hmiss, hA, hS, hW, hF]
  · unfold apodProxy
    simp only [hne, Bool.false_eq_true, if_false, hd, Bool.not_true, hmiss2, hA, hS, hW, hF]
  · unfold imagesAssetOut
    simp only [hnoimg]
    rfl
  · rw [h4]
    exact cacheLookup_cacheSet_self ca1 _ _ now ASSET_TTL_MS

/-- Witness for C6 at a concrete input: all strategies failing for a valid
date, and an asset listing with no direct media link. -/
theorem C6_failure_caching_asymmetry_witness :
    apodProxy wC6 [] 0 (.str "2021-02-03") =
      ⟨.notFound, [], [.cacheRead, .primaryApi, .pageScrape, .wayback, .search]⟩ ∧
    apodProxy wC6 [] 0 (.str "2021-02-03") =
      ⟨.notFound, [], [.cacheRead, .primaryApi, .pageScrape, .wayback, .search]⟩ ∧
    (imagesAssetOut [⟨some "doc.pdf"⟩, ⟨none⟩]).best = none ∧
    resolveAssetByNasaId wC6 [] 0 "PIA00001" =
      (some (imagesAssetOut [⟨some "doc.pdf"⟩, ⟨none⟩]),
       cacheSet [] ("asset:" ++ "PIA00001") (.asset (imagesAssetOut [⟨some "doc.pdf"⟩, ⟨none⟩]))
         0 ASSET_TTL_MS,
       [.cacheRead, .assetFetch]) ∧
    cacheLookup (resolveAssetByNasaId wC6 [] 0 "PIA00001").2.1 ("asset:" ++ "PIA00001") =
      some ⟨.asset (imagesAssetOut [⟨some "doc.pdf"⟩, ⟨none⟩]), 0 + ASSET_TTL_MS⟩ :=
  C6_failure_caching_asymmetry wC6 [] [] [] [] 0 "2021-02-03" "PIA00001"
    [⟨some "doc.pdf"⟩, ⟨none⟩]
    (by decide) rfl rfl rfl rfl rfl (by decide) rfl (by decide) (by decide) (by decide)

/-- C7: a `cacheGet` on a present-but-expired entry behaves exactly like a
get on an absent key — it returns null and removes the entry — a value is
never delivered from an expired or absent entry, and a subsequent resolve
for that date reaches the strategies again (the primary API is invoked). -/
theorem C7_expired_equals_absent (c : Cache CData) (now : Nat) (date : String)
    (e : CacheEntry CData) (w : World)
    (cg : Cache CData) (kg : String) (tg : Nat) (vg : CData) (cg1 : Cache CData)
    (hd : datePattern date = true)
    (hl : cacheLookup c ("apod:" ++ date) = some e)
    (hx : now > e.expires)
    (hget : cacheGet cg kg tg = (some vg, cg1)) :
    cacheGet c ("apod:" ++ date) now = (none, cacheDelete c ("apod:" ++ date)) ∧
    cacheLookup (cacheGet c ("apod:" ++ date) now).2 ("apod:" ++ date) = none ∧
    unexpiredAt cg kg tg vg ∧
    Ev.primaryApi ∈ (apodProxy w c now (.str date)).trace := by
  have hne := datePattern_ne_empty hd
  have h1 : cacheGet c ("apod:" ++ date) now = (none, cacheDelete c ("apod:" ++ date)) := by
    unfold cacheGet
    rw [hl]
    simp only []
    rw [if_pos hx]
  refine ⟨h1, ?_, ?_, ?_⟩
  · rw [h1]
    exact cacheLookup_cacheDelete_self c ("apod:" ++ date)
  · obtain ⟨eg, hlg, hed, hexp, _⟩ := cacheGet_some hget
    exact ⟨eg, hlg, hed.symm, hexp⟩
  · unfold apodProxy
    simp only [hne, Bool.false_eq_true, if_false, hd, Bool.not_true, h1]
    cases hA : tryApi w date with
    | some out => simp
    | none =>
      simp only [hA]
      cases hS : tryScrape w date with
      | some out => simp
      | none =>
        simp only [hS]
        cases hW : tryWayback w date with
        | some out => simp
        | none =>
          simp only [hW]
          cases hF : trySearch w date with
          | some out => simp
          | none => simp [hF]

/-- Witness for C7 at a concrete input: an entry that expired at time 5,
read at time 10, in the all-failing world. -/
theorem C7_expired_equals_absent_witness :
    cacheGet cC7 ("apod:" ++ "2020-01-01") 10 =
      (none, cacheDelete cC7 ("apod:" ++ "2020-01-01")) ∧
    cacheLookup (cacheGet cC7 ("apod:" ++ "2020-01-01") 10).2 ("apod:" ++ "2020-01-01") =
      none ∧
    unexpiredAt [("k", ⟨CData.apod mC7, 100⟩)] "k" 50 (CData.apod mC7) ∧
    Ev.primaryApi ∈ (apodProxy wNone cC7 10 (.str "2020-01-01")).trace :=
  C7_expired_equals_absent cC7 10 "2020-01-01" ⟨CData.apod mC7, 5⟩ wNone
    [("k", ⟨CData.apod mC7, 100⟩)] "k" 50 (CData.apod mC7) [("k", ⟨CData.apod mC7, 100⟩)]
    (by decide) (by decide) (by decide) (by decide)

theorem isPrefixOf_append_right (p r : List Char) : p.isPrefixOf (p ++ r) = true := by
  rw [List.isPrefixOf_iff_prefix]
  exact List.prefix_append p r

/-- A string whose lowercased characters start with `https://` is an
absolute URL. -/
theorem isAbsUrl_of_data (x : String) (rest : List Char)
    (hx : x.data.map Char.toLower = "https://".data ++ rest) :
    isAbsUrl x = true := by
  unfold isAbsUrl strStartsWith lowerStr
  show ("http://".data.isPrefixOf (x.data.map Char.toLower)
      || "https://".data.isPrefixOf (x.data.map Char.toLower)) = true
  rw [hx, isPrefixOf_append_right]
  exact Bool.or_true _

/-- `urlResolve` always yields an absolute http(s) URL: absolute inputs pass
through and every other input is grafted onto the https base. -/
theorem urlResolve_abs (s : String) : isAbsUrl (urlResolve s) = true := by
  unfold urlResolve
  by_cases h1 : isAbsUrl s = true
  · simp only [h1, if_true]
  · simp only [h1, Bool.false_eq_true, if_false]
    by_cases h2 : strStartsWith s "//" = true
    · simp only [h2, if_true]
      obtain ⟨t, ht⟩ := List.isPrefixOf_iff_prefix.mp h2
      refine isAbsUrl_of_data _ (t.map Char.toLower) ?_
      rw [String.data_append, ← ht, List.map_append, List.map_append]
      rw [show "https:".data.map Char.toLower = "https:".data from by decide]
      rw [show "//".data.map Char.toLower = "//".data from by decide]
      rw [← List.append_assoc]
      rw [show "https:".data ++ "//".data = "https://".data from by decide]
    · simp only [h2, Bool.false_eq_true, if_false]
      by_cases h3 : strStartsWith s "/" = true
      · simp only [h3, if_true]
        refine isAbsUrl_of_data _ ("apod.nasa.gov".data ++ s.data.map Char.toLower) ?_
        rw [String.data_append, List.map_append]
        rw [show "https://apod.nasa.gov".data.map Char.toLower =
              "https://".data ++ "apod.nasa.gov".data from by decide]
        rw [List.append_assoc]
      · simp only [h3, Bool.false_eq_true, if_false]
        refine isAbsUrl_of_data _ ("apod.nasa.gov/apod/".data ++ s.data.map Char.toLower) ?_
        rw [String.data_append, List.map_append]
        rw [show apodBase.data.map Char.toLower =
              "https://".data ++ "apod.nasa.gov/apod/".data from by decide]
        rw [List.append_assoc]

/-- C9: the archived-snapshot strategy owns no extraction logic — it is
exactly snapshot discovery composed with the page-scrape extractor applied
to the snapshot URL — and that shared extractor produces a `url` equal to
the picked media reference resolved against the known base URL, hence
absolute. -/
theorem C9_wayback_pure_composition (w : World) (page url : String) (r : ScrapeRaw)
    (h : scrapeApodPage w url = some r) :
    fetchWaybackAndScrape w page = (snapshotOf w page).bind (scrapeApodPage w) ∧
    extractsResolvedFrom w url r := by
  constructor
  · unfold fetchWaybackAndScrape snapshotOf
    cases hw : w.wayback page with
    | none => simp only [hw]; rfl
    | some resp =>
      simp only [hw]
      cases hc : resp.closest with
      | none => simp only [hc]; rfl
      | some cl =>
        simp only [hc]
        cases ha : cl.available with
        | true => simp [ha]
        | false => simp [ha]
  · unfold scrapeApodPage at h
    cases hp : w.pages url with
    | none => simp [hp] at h
    | some d =>
      simp only [hp] at h
      cases hs : pickSrc d with
      | none => simp [hs] at h
      | some src =>
        simp only [hs, Option.some.injEq] at h
        refine ⟨d, src, hp, hs, ?_, ?_⟩
        · rw [← h]
        · rw [← h]
          exact urlResolve_abs src

/-- Witness for C9 at a concrete input: scraping the snapshot document of
the 1997-03-01 page. -/
theorem C9_wayback_pure_composition_witness :
    fetchWaybackAndScrape wC9 "https://apod.nasa.gov/apod/ap970301.html" =
      (snapshotOf wC9 "https://apod.nasa.gov/apod/ap970301.html").bind
        (scrapeApodPage wC9) ∧
    extractsResolvedFrom wC9 "https://web.archive.org/web/1997/ap970301.html"
      { url := "https://apod.nasa.gov/apod/image/9703/comet_big.gif",
        title := some "APOD March 1", explanation := some "Comet Hale-Bopp" } :=
  C9_wayback_pure_composition wC9 "https://apod.nasa.gov/apod/ap970301.html"
    "https://web.archive.org/web/1997/ap970301.html"
    { url := "https://apod.nasa.gov/apod/image/9703/comet_big.gif",
      title := some "APOD March 1", explanation := some "Comet Hale-Bopp" }
    (by decide)

end ApodProxy
